import Mathlib

/-!
Verification of the Mars landing fuel management system
(`src/mars_landing.py`).

The Python module is embedded shallowly over the rationals: every float
quantity of the source becomes a `ℚ`, so the algebraic structure of each
computation (differences, quotients, comparisons, the 0.001 floor) is
preserved exactly.  The `float('inf')` sentinel used for time-to-depletion
becomes `Option ℚ`, with `none` standing for the unbounded value.  Python
dictionaries keyed by the mission-phase string become functions
`String → Option _`, with `.getD` playing the role of `dict.get(key, default)`.
Methods that mutate the system object are embedded as functions returning the
updated state alongside their result.
-/

/-- Constants of the source module (`GRAVITY_MARS` is unused by the pipeline
but kept for completeness). -/
def GRAVITY_MARS : ℚ := 3.71

/-- Minimum reserve fuel in kg (`SAFE_RESERVE`). -/
def SAFE_RESERVE : ℚ := 100

/-- Relative deviation that triggers the anomaly flag (`BURN_RATE_TOLERANCE`). -/
def BURN_RATE_TOLERANCE : ℚ := 0.15

/-- Seconds-to-depletion threshold for the time-critical alert
(`ALERT_THRESHOLD`). -/
def ALERT_THRESHOLD : ℚ := 30

/-- Mission phase record (`MissionPhase` dataclass). -/
structure MissionPhase where
  name : String
  nominal_burn_rate : ℚ
  duration : ℚ
  gravity_loss_factor : ℚ
deriving Repr, DecidableEq

/-- Output of the burn-rate calculation (`ConsumptionData` dataclass). -/
structure ConsumptionData where
  actual_burn_rate : ℚ
  deviation_percent : ℚ
  anomaly_flag : Bool
  current_fuel : ℚ
deriving Repr, DecidableEq

/-- Entry of the per-phase fuel breakdown list (the dict
`{"phase": ..., "fuel_required": ..., "duration": ...}` built inside
`predict_fuel_requirements`). -/
structure BreakdownEntry where
  phase : String
  fuel_required : ℚ
  duration : ℚ
deriving Repr, DecidableEq

/-- Output of the fuel requirement prediction (`FuelPrediction` dataclass). -/
structure FuelPrediction where
  required_fuel : ℚ
  with_margin : ℚ
  breakdown : List BreakdownEntry
  confidence : ℚ
deriving Repr, DecidableEq

/-- Output of the safety margin evaluation (`SafetyEvaluation` dataclass).
`time_remaining = none` models the `float('inf')` sentinel. -/
structure SafetyEvaluation where
  status : String
  fuel_margin : ℚ
  abort_capable : Bool
  time_remaining : Option ℚ
  fuel_sufficient : Bool
deriving Repr, DecidableEq

/-- Output of alert generation (`AlertPackage` dataclass). -/
structure AlertPackage where
  warnings : List String
  recommendations : List String
  priority : String
deriving Repr, DecidableEq

/-- The `PHASE_BURN_RATES` dictionary as a lookup function:
`none` models a missing key. -/
def PHASE_BURN_RATES (phase : String) : Option ℚ :=
  if phase = "powered_descent" then some 8.0
  else if phase = "constant_deceleration" then some 6.0
  else if phase = "final_approach" then some 4.0
  else if phase = "landing" then some 12.0
  else none

/-- The `REMAINING_MANEUVERS` dictionary as a lookup function:
`none` models a missing key. -/
def REMAINING_MANEUVERS (phase : String) : Option (List MissionPhase) :=
  if phase = "powered_descent" then
    some [⟨"constant_deceleration", 6.0, 40, 0.08⟩,
          ⟨"final_approach", 4.0, 20, 0.05⟩,
          ⟨"landing", 12.0, 10, 0.03⟩]
  else if phase = "constant_deceleration" then
    some [⟨"final_approach", 4.0, 20, 0.05⟩,
          ⟨"landing", 12.0, 10, 0.03⟩]
  else if phase = "final_approach" then
    some [⟨"landing", 12.0, 10, 0.03⟩]
  else if phase = "landing" then
    some []
  else none

/-- Mutable state of `MarsLandingFuelSystem`: previous fuel/timestamp history,
mission phase, alert history, and the simulated sensor values. -/
structure MarsLandingFuelSystem where
  previous_fuel_mass : ℚ
  previous_timestamp : ℚ
  mission_phase : String
  alert_history : List String
  current_fuel_mass : ℚ
  altitude : ℚ
  velocity : ℚ
deriving Repr, DecidableEq

/-- Constructor (`__init__`): `initial_time` stands for the `time.time()`
call. -/
def initSystem (initial_fuel : ℚ) (mission_phase : String)
    (initial_time : ℚ) : MarsLandingFuelSystem :=
  { previous_fuel_mass := initial_fuel
    previous_timestamp := initial_time
    mission_phase := mission_phase
    alert_history := []
    current_fuel_mass := initial_fuel
    altitude := 5000.0
    velocity := 80.0 }

/-- Subproblem 1 (`calculate_burn_rate`): compute the actual burn rate,
deviation from the phase's nominal rate, and the anomaly flag.  The returned
state carries the side effect of advancing `previous_fuel_mass` and
`previous_timestamp`. -/
def calculate_burn_rate (s : MarsLandingFuelSystem)
    (current_fuel current_time : ℚ) :
    ConsumptionData × MarsLandingFuelSystem :=
  let time_delta := current_time - s.previous_timestamp
  let time_delta := if time_delta ≤ 0 then (0.001 : ℚ) else time_delta
  let fuel_consumed := s.previous_fuel_mass - current_fuel
  let actual_burn_rate := fuel_consumed / time_delta
  let nominal_burn_rate := (PHASE_BURN_RATES s.mission_phase).getD 6.0
  let deviation :=
    if nominal_burn_rate > 0 then
      (actual_burn_rate - nominal_burn_rate) / nominal_burn_rate
    else 0
  let anomaly_detected : Bool := |deviation| > BURN_RATE_TOLERANCE
  (⟨actual_burn_rate, deviation * 100, anomaly_detected, current_fuel⟩,
   { s with previous_fuel_mass := current_fuel,
            previous_timestamp := current_time })

/-- Loop body of `predict_fuel_requirements`: fold one maneuver into the
running total and breakdown list. -/
def predict_step (burn_rate : ℚ) (acc : ℚ × List BreakdownEntry)
    (maneuver : MissionPhase) : ℚ × List BreakdownEntry :=
  let burn_adjustment :=
    if maneuver.nominal_burn_rate > 0 then
      burn_rate / maneuver.nominal_burn_rate
    else 1.0
  let phase_fuel := maneuver.duration * burn_rate * burn_adjustment
  let adjusted_fuel := phase_fuel * (1 + maneuver.gravity_loss_factor)
  (acc.1 + adjusted_fuel,
   acc.2 ++ [⟨maneuver.name, adjusted_fuel, maneuver.duration⟩])

/-- Subproblem 2 (`predict_fuel_requirements`): total fuel needed for the
remaining maneuvers of the current phase, with an uncertainty margin of 20%
under anomaly and 5% otherwise, plus a confidence score. -/
def predict_fuel_requirements (s : MarsLandingFuelSystem)
    (burn_rate : ℚ) (anomaly_detected : Bool) : FuelPrediction :=
  let remaining_maneuvers := (REMAINING_MANEUVERS s.mission_phase).getD []
  let folded := remaining_maneuvers.foldl (predict_step burn_rate) (0, [])
  let total_required_fuel := folded.1
  let fuel_breakdown := folded.2
  let uncertainty_margin :=
    if anomaly_detected then total_required_fuel * 0.20
    else total_required_fuel * 0.05
  let total_with_margin := total_required_fuel + uncertainty_margin
  let confidence_level :=
    if total_required_fuel > 0 then
      (1 - uncertainty_margin / total_required_fuel) * 100
    else 100.0
  ⟨total_required_fuel, total_with_margin, fuel_breakdown, confidence_level⟩

/-- Abort-to-orbit fuel estimate (`_calculate_abort_to_orbit_fuel`). -/
def calculate_abort_to_orbit_fuel (s : MarsLandingFuelSystem) : ℚ :=
  let altitude_factor := max 0 (s.altitude / 5000.0)
  let velocity_factor := s.velocity / 100.0
  let base_abort_fuel : ℚ := 200
  let altitude_penalty := 50 * (1 - altitude_factor)
  let velocity_penalty := 30 * velocity_factor
  base_abort_fuel + altitude_penalty + velocity_penalty

/-- Subproblem 3 (`evaluate_safety_margins`): fuel margin, abort capability,
status classification and time to depletion. -/
def evaluate_safety_margins (s : MarsLandingFuelSystem)
    (current_fuel required_fuel burn_rate : ℚ) : SafetyEvaluation :=
  let fuel_margin := current_fuel - required_fuel - SAFE_RESERVE
  let abort_maneuver_fuel := calculate_abort_to_orbit_fuel s
  let abort_capable : Bool := current_fuel ≥ abort_maneuver_fuel + 50
  let status :=
    if fuel_margin ≥ 0 ∧ abort_capable then "NOMINAL"
    else if fuel_margin ≥ -50 ∨ abort_capable then "CAUTION"
    else "CRITICAL"
  let time_to_depletion : Option ℚ :=
    if burn_rate > 0 then some (current_fuel / burn_rate) else none
  ⟨status, fuel_margin, abort_capable, time_to_depletion, fuel_margin ≥ 0⟩

/-- Warning emitted on insufficient fuel (first f-string of
`generate_alerts`; the numeric rendering stands for Python's `:.1f`
formatting). -/
def deficit_warning (fuel_deficit : ℚ) : String :=
  "DEFICIT: " ++ toString fuel_deficit ++ " kg shortfall"

/-- Warning emitted on anomalous consumption (the burn-rate deviation
f-string of `generate_alerts`). -/
def deviation_warning (deviation : ℚ) : String :=
  "ALERT: Burn rate " ++ toString deviation ++ "% from nominal"

/-- Warning emitted when depletion is imminent (the time-critical f-string of
`generate_alerts`). -/
def time_critical_warning (t : ℚ) : String :=
  "TIME CRITICAL: " ++ toString t ++ "s to depletion"

/-- Subproblem 4 (`generate_alerts`): build the ordered warning and
recommendation lists.  The comparison `time_remaining < ALERT_THRESHOLD` is
false on the unbounded sentinel, matching `float('inf') < 30` in Python. -/
def generate_alerts (safety_eval : SafetyEvaluation)
    (consumption_data : ConsumptionData) (_prediction : FuelPrediction) :
    AlertPackage :=
  let warnings : List String := []
  let recommendations : List String := []
  let warnings :=
    if safety_eval.fuel_sufficient = false then
      warnings ++ ["CRITICAL: Insufficient fuel for nominal landing",
                   deficit_warning |safety_eval.fuel_margin|]
    else warnings
  let recommendations :=
    if safety_eval.fuel_sufficient = false then
      if safety_eval.abort_capable then
        recommendations ++ ["IMMEDIATE: Consider abort to orbit"]
      else
        recommendations ++ ["EMERGENCY: Optimize trajectory NOW",
                            "Consider emergency landing procedures"]
    else recommendations
  let warnings :=
    if safety_eval.abort_capable = false ∧ safety_eval.status ≠ "CRITICAL" then
      warnings ++ ["WARNING: Abort-to-orbit window closing"]
    else warnings
  let warnings :=
    if consumption_data.anomaly_flag then
      warnings ++ [deviation_warning consumption_data.deviation_percent]
    else warnings
  let recommendations :=
    if consumption_data.anomaly_flag then
      recommendations ++ ["Investigate thruster performance"]
    else recommendations
  let warnings :=
    match safety_eval.time_remaining with
    | some t => if t < ALERT_THRESHOLD then
        warnings ++ [time_critical_warning t]
      else warnings
    | none => warnings
  let recommendations :=
    if safety_eval.status = "NOMINAL" ∧ warnings.length = 0 then
      recommendations ++ ["Continue nominal descent profile"]
    else recommendations
  ⟨warnings, recommendations, safety_eval.status⟩

/-- Snapshot assembled by `monitor_cycle` (the returned status dictionary;
the wall-clock `timestamp` string produced by `datetime.now()` is outside
the embedding). -/
structure Snapshot where
  mission_phase : String
  status : String
  current_fuel : ℚ
  burn_rate : ℚ
  burn_rate_deviation : ℚ
  anomaly_detected : Bool
  required_fuel : ℚ
  fuel_margin : ℚ
  fuel_at_touchdown : ℚ
  time_remaining : Option ℚ
  abort_capable : Bool
  confidence : ℚ
  warnings : List String
  recommendations : List String
  altitude : ℚ
  velocity : ℚ
deriving Repr, DecidableEq

/-- Full monitoring cycle (`monitor_cycle`): runs the four-stage pipeline and
assembles the snapshot.  `current_time` stands for the `time.time()` call;
the returned state carries the mutation done by `calculate_burn_rate`. -/
def monitor_cycle (s : MarsLandingFuelSystem) (current_time : ℚ) :
    Snapshot × MarsLandingFuelSystem :=
  let step1 := calculate_burn_rate s s.current_fuel_mass current_time
  let consumption_data := step1.1
  let s1 := step1.2
  let fuel_prediction := predict_fuel_requirements s1
    consumption_data.actual_burn_rate consumption_data.anomaly_flag
  let safety_status := evaluate_safety_margins s1
    consumption_data.current_fuel fuel_prediction.with_margin
    consumption_data.actual_burn_rate
  let alerts := generate_alerts safety_status consumption_data fuel_prediction
  let fuel_at_touchdown :=
    consumption_data.current_fuel - fuel_prediction.required_fuel
  (⟨s1.mission_phase, safety_status.status, consumption_data.current_fuel,
    consumption_data.actual_burn_rate, consumption_data.deviation_percent,
    consumption_data.anomaly_flag, fuel_prediction.required_fuel,
    safety_status.fuel_margin, fuel_at_touchdown,
    safety_status.time_remaining, safety_status.abort_capable,
    fuel_prediction.confidence, alerts.warnings, alerts.recommendations,
    s1.altitude, s1.velocity⟩, s1)

/-- Sensor update simulation (`update_sensors`): additive deltas followed by
clamping to a non-negative floor. -/
def update_sensors (s : MarsLandingFuelSystem)
    (fuel_delta altitude_delta velocity_delta : ℚ) : MarsLandingFuelSystem :=
  { s with current_fuel_mass := max 0 (s.current_fuel_mass + fuel_delta)
           altitude := max 0 (s.altitude + altitude_delta)
           velocity := max 0 (s.velocity + velocity_delta) }

/-- Phase setter (`set_mission_phase`): stores the phase only when it is a
key of `PHASE_BURN_RATES`. -/
def set_mission_phase (s : MarsLandingFuelSystem) (phase : String) :
    MarsLandingFuelSystem :=
  if (PHASE_BURN_RATES phase).isSome then { s with mission_phase := phase }
  else s
/-- C1: `evaluate_safety_margins` returns exactly one of the three labels,
with NOMINAL iff the fuel margin is non-negative and abort is possible,
CAUTION iff that fails but the margin is at least -50 or abort is possible,
CRITICAL otherwise; and `fuel_sufficient` mirrors margin ≥ 0. -/
theorem C1_status_classification (s : MarsLandingFuelSystem) (cf rf br : ℚ) :
    ((evaluate_safety_margins s cf rf br).status = "NOMINAL" ∨
     (evaluate_safety_margins s cf rf br).status = "CAUTION" ∨
     (evaluate_safety_margins s cf rf br).status = "CRITICAL") ∧
    ((evaluate_safety_margins s cf rf br).status = "NOMINAL" ↔
      ((evaluate_safety_margins s cf rf br).fuel_margin ≥ 0 ∧
       (evaluate_safety_margins s cf rf br).abort_capable = true)) ∧
    ((evaluate_safety_margins s cf rf br).status = "CAUTION" ↔
      (¬((evaluate_safety_margins s cf rf br).fuel_margin ≥ 0 ∧
         (evaluate_safety_margins s cf rf br).abort_capable = true) ∧
       ((evaluate_safety_margins s cf rf br).fuel_margin ≥ -50 ∨
        (evaluate_safety_margins s cf rf br).abort_capable = true))) ∧
    ((evaluate_safety_margins s cf rf br).status = "CRITICAL" ↔
      (¬((evaluate_safety_margins s cf rf br).fuel_margin ≥ 0 ∧
         (evaluate_safety_margins s cf rf br).abort_capable = true) ∧
       ¬((evaluate_safety_margins s cf rf br).fuel_margin ≥ -50 ∨
         (evaluate_safety_margins s cf rf br).abort_capable = true))) ∧
    ((evaluate_safety_margins s cf rf br).fuel_sufficient = true ↔
      (evaluate_safety_margins s cf rf br).fuel_margin ≥ 0) := by
  unfold evaluate_safety_margins
  dsimp only
  split_ifs with h1 h2 <;> simp_all

/-- C5: time to depletion is the quotient on a positive burn rate and the
unbounded sentinel otherwise, which differs from every finite value. -/
theorem C5_time_to_depletion (s : MarsLandingFuelSystem) (cf rf br : ℚ) :
    (evaluate_safety_margins s cf rf br).time_remaining =
      (if br > 0 then some (cf / br) else none) ∧
    (br ≤ 0 → ∀ q : ℚ,
      (evaluate_safety_margins s cf rf br).time_remaining ≠ some q) := by
  unfold evaluate_safety_margins
  refine ⟨rfl, fun h q => ?_⟩
  simp [not_lt.mpr h]

theorem C5_witness :
    (evaluate_safety_margins ⟨100, 0, "landing", [], 100, 95, 3⟩ 5 0 (-1)).time_remaining ≠ some 7 :=
  (C5_time_to_depletion ⟨100, 0, "landing", [], 100, 95, 3⟩ 5 0 (-1)).2 (by norm_num) 7

/-- Prediction on an empty remaining-maneuver list: the fold contributes
nothing, margins multiply zero, and confidence takes the zero-total branch. -/
lemma predict_of_empty_maneuvers (s : MarsLandingFuelSystem) (br : ℚ)
    (flag : Bool) (h : (REMAINING_MANEUVERS s.mission_phase).getD [] = []) :
    predict_fuel_requirements s br flag = ⟨0, 0, [], 100⟩ := by
  unfold predict_fuel_requirements
  rw [h]
  cases flag <;> norm_num

/-- C6: a phase with an empty remaining-maneuver list yields zero required
fuel, zero margined requirement, an empty breakdown and confidence 100. -/
theorem C6_terminal_phase (s : MarsLandingFuelSystem) (br : ℚ) (flag : Bool)
    (h : (REMAINING_MANEUVERS s.mission_phase).getD [] = []) :
    predict_fuel_requirements s br flag = ⟨0, 0, [], 100⟩ :=
  predict_of_empty_maneuvers s br flag h

theorem C6_witness :
    predict_fuel_requirements ⟨118, 0, "landing", [], 118, 95, 3⟩ 12 false = ⟨0, 0, [], 100⟩ :=
  C6_terminal_phase ⟨118, 0, "landing", [], 118, 95, 3⟩ 12 false (by decide)

/-- C9: one monitoring cycle advances only the previous-fuel and
previous-timestamp history; every other state field is untouched. -/
theorem C9_monitor_cycle_frame (s : MarsLandingFuelSystem) (t : ℚ) :
    (monitor_cycle s t).2.previous_fuel_mass = s.current_fuel_mass ∧
    (monitor_cycle s t).2.previous_timestamp = t ∧
    (monitor_cycle s t).2.current_fuel_mass = s.current_fuel_mass ∧
    (monitor_cycle s t).2.altitude = s.altitude ∧
    (monitor_cycle s t).2.velocity = s.velocity ∧
    (monitor_cycle s t).2.mission_phase = s.mission_phase ∧
    (monitor_cycle s t).2.alert_history = s.alert_history :=
  ⟨rfl, rfl, rfl, rfl, rfl, rfl, rfl⟩

/-- C10: setting an unknown mission phase leaves the state unchanged. -/
theorem C10_unknown_phase_ignored (s : MarsLandingFuelSystem) (phase : String)
    (h : PHASE_BURN_RATES phase = none) :
    set_mission_phase s phase = s := by
  unfold set_mission_phase
  rw [h]
  rfl

theorem C10_witness :
    set_mission_phase ⟨100, 0, "landing", [], 100, 95, 3⟩ "ballistic_entry" =
      ⟨100, 0, "landing", [], 100, 95, 3⟩ :=
  C10_unknown_phase_ignored ⟨100, 0, "landing", [], 100, 95, 3⟩ "ballistic_entry" (by decide)
/-- Burn-rate formula as the specification words it (§4.1 / §8): the time
delta is floored with `max` at 0.001 before dividing.  Kept separate from
`calculate_burn_rate`, which substitutes 0.001 only when the raw delta is
non-positive. -/
def spec_burn_rate_formula (previous_fuel previous_ts current_fuel
    current_ts : ℚ) : ℚ :=
  (previous_fuel - current_fuel) / max (current_ts - previous_ts) 0.001

/-- C2 counterexample: with a raw time delta of 1/2000 s (positive but below
the 0.001 floor) the code divides by 1/2000 and returns 2000 kg/s, while the
`max` formula of the specification divides by 0.001 and returns 1000 kg/s. -/
theorem C2_counterexample :
    (calculate_burn_rate ⟨1, 0, "landing", [], 1, 5000, 80⟩ 0 (1/2000)).1.actual_burn_rate ≠
      spec_burn_rate_formula 1 0 0 (1/2000) := by
  unfold calculate_burn_rate spec_burn_rate_formula
  norm_num

/-- C2 (amended): `calculate_burn_rate` divides the consumed fuel by the raw
time delta whenever that delta is positive — even below 0.001 — and
substitutes 0.001 exactly when the delta is zero or negative; no error is
raised in either case. -/
theorem C2_burn_rate_formula (s : MarsLandingFuelSystem) (f t : ℚ) :
    (t - s.previous_timestamp ≤ 0 →
      (calculate_burn_rate s f t).1.actual_burn_rate =
        (s.previous_fuel_mass - f) / 0.001) ∧
    (0 < t - s.previous_timestamp →
      (calculate_burn_rate s f t).1.actual_burn_rate =
        (s.previous_fuel_mass - f) / (t - s.previous_timestamp)) := by
  unfold calculate_burn_rate
  constructor
  · intro h
    simp [h]
  · intro h
    simp [not_le.mpr h]

theorem C2_witness :
    (calculate_burn_rate ⟨10, 5, "landing", [], 10, 5000, 80⟩ 7 5).1.actual_burn_rate =
      (10 - 7) / 0.001 ∧
    (calculate_burn_rate ⟨10, 5, "landing", [], 10, 5000, 80⟩ 7 6).1.actual_burn_rate =
      (10 - 7) / (6 - 5) :=
  ⟨(C2_burn_rate_formula ⟨10, 5, "landing", [], 10, 5000, 80⟩ 7 5).1 (by norm_num),
   (C2_burn_rate_formula ⟨10, 5, "landing", [], 10, 5000, 80⟩ 7 6).2 (by norm_num)⟩

/-- C4: the anomaly flag is set exactly when the relative deviation exceeds
the 0.15 tolerance strictly; at exactly 0.15 the flag stays off. -/
theorem C4_anomaly_threshold (s : MarsLandingFuelSystem) (f t : ℚ) :
    ((calculate_burn_rate s f t).1.anomaly_flag = true ↔
      |(calculate_burn_rate s f t).1.deviation_percent / 100| > 0.15) ∧
    (|(calculate_burn_rate s f t).1.deviation_percent / 100| = 0.15 →
      (calculate_burn_rate s f t).1.anomaly_flag = false) := by
  unfold calculate_burn_rate BURN_RATE_TOLERANCE
  dsimp only
  rw [mul_div_assoc]
  norm_num
  exact fun h => le_of_eq h

theorem C4_witness :
    (calculate_burn_rate ⟨13.8, 0, "landing", [], 13.8, 5000, 80⟩ 0 1).1.anomaly_flag = false :=
  (C4_anomaly_threshold ⟨13.8, 0, "landing", [], 13.8, 5000, 80⟩ 0 1).2 (by
    simp [calculate_burn_rate, PHASE_BURN_RATES]
    norm_num)
/-- Required fuel is non-negative for every burn rate, since each maneuver of
the profile table contributes `duration * rate * (rate / nominal) * (1 + g)`
with positive nominal rate and non-negative duration and loss factor, and
phases off the table contribute nothing. -/
lemma required_fuel_nonneg (s : MarsLandingFuelSystem) (br : ℚ) (flag : Bool) :
    0 ≤ (predict_fuel_requirements s br flag).required_fuel := by
  unfold predict_fuel_requirements REMAINING_MANEUVERS
  by_cases h1 : s.mission_phase = "powered_descent"
  · simp [h1, predict_step]
    norm_num
    nlinarith [sq_nonneg br]
  by_cases h2 : s.mission_phase = "constant_deceleration"
  · simp [h1, h2, predict_step]
    norm_num
    nlinarith [sq_nonneg br]
  by_cases h3 : s.mission_phase = "final_approach"
  · simp [h1, h2, h3, predict_step]
    norm_num
    nlinarith [sq_nonneg br]
  by_cases h4 : s.mission_phase = "landing"
  · simp [h1, h2, h3, h4, predict_step]
  · simp [h1, h2, h3, h4, predict_step]

/-- C3: the margined requirement never falls below the required fuel, and
the uncertainty margin is exactly 20% of the required fuel under anomaly and
exactly 5% otherwise. -/
theorem C3_margin_policy (s : MarsLandingFuelSystem) (br : ℚ) (flag : Bool) :
    (predict_fuel_requirements s br flag).with_margin ≥
      (predict_fuel_requirements s br flag).required_fuel ∧
    (predict_fuel_requirements s br flag).with_margin -
      (predict_fuel_requirements s br flag).required_fuel =
      (if flag then (0.20 : ℚ) else 0.05) *
        (predict_fuel_requirements s br flag).required_fuel := by
  have hnn := required_fuel_nonneg s br flag
  unfold predict_fuel_requirements at hnn ⊢
  dsimp only at hnn ⊢
  cases flag <;> norm_num at hnn ⊢ <;> constructor <;> nlinarith
/-- Keys absent from the burn-rate table are also absent from the
remaining-maneuver table: both dictionaries share the four phase keys. -/
lemma remaining_maneuvers_none_of_burn_rates_none (phase : String)
    (h : PHASE_BURN_RATES phase = none) : REMAINING_MANEUVERS phase = none := by
  unfold PHASE_BURN_RATES at h
  unfold REMAINING_MANEUVERS
  split_ifs at h ⊢
  simp_all

/-- C7: a mission phase outside the profile table makes `calculate_burn_rate`
fall back to the 6.0 kg/s default nominal rate (visible in the deviation and
anomaly outputs) and makes `predict_fuel_requirements` use an empty maneuver
list; both still return normally. -/
theorem C7_unknown_phase_defaults (s : MarsLandingFuelSystem)
    (f t br : ℚ) (flag : Bool) (h : PHASE_BURN_RATES s.mission_phase = none) :
    (calculate_burn_rate s f t).1.deviation_percent =
      (((calculate_burn_rate s f t).1.actual_burn_rate - 6.0) / 6.0) * 100 ∧
    (calculate_burn_rate s f t).1.anomaly_flag =
      decide (|((calculate_burn_rate s f t).1.actual_burn_rate - 6.0) / 6.0| >
        BURN_RATE_TOLERANCE) ∧
    REMAINING_MANEUVERS s.mission_phase = none ∧
    predict_fuel_requirements s br flag = ⟨0, 0, [], 100⟩ := by
  have hrm := remaining_maneuvers_none_of_burn_rates_none s.mission_phase h
  refine ⟨?_, ?_, hrm, ?_⟩
  · unfold calculate_burn_rate
    rw [h]
    norm_num
  · unfold calculate_burn_rate
    rw [h]
    norm_num
  · exact predict_of_empty_maneuvers s br flag (by rw [hrm]; rfl)

theorem C7_witness :
    (calculate_burn_rate ⟨20, 0, "ballistic_coast", [], 20, 5000, 80⟩ 8 1).1.anomaly_flag =
      decide (|((calculate_burn_rate ⟨20, 0, "ballistic_coast", [], 20, 5000, 80⟩ 8 1).1.actual_burn_rate - 6.0) / 6.0| >
        BURN_RATE_TOLERANCE) ∧
    predict_fuel_requirements ⟨20, 0, "ballistic_coast", [], 20, 5000, 80⟩ 9 true = ⟨0, 0, [], 100⟩ := by
  have h := C7_unknown_phase_defaults ⟨20, 0, "ballistic_coast", [], 20, 5000, 80⟩ 8 1 9 true (by decide)
  exact ⟨h.2.1, h.2.2.2⟩
/-- Strings with different leading characters differ. -/
lemma string_ne_of_head_ne {s t : String} (h : s.data.head? ≠ t.data.head?) :
    s ≠ t :=
  fun e => h (by rw [e])

/-- The abort-window warning never collides with a deficit warning: they
start with different characters. -/
lemma abort_ne_deficit_warning (q : ℚ) :
    "WARNING: Abort-to-orbit window closing" ≠ deficit_warning q := by
  apply string_ne_of_head_ne
  intro h
  simp [deficit_warning, String.data] at h

/-- The abort-window warning never collides with a burn-rate deviation
warning. -/
lemma abort_ne_deviation_warning (q : ℚ) :
    "WARNING: Abort-to-orbit window closing" ≠ deviation_warning q := by
  apply string_ne_of_head_ne
  intro h
  simp [deviation_warning, String.data] at h

/-- The abort-window warning never collides with a time-critical warning. -/
lemma abort_ne_time_critical_warning (q : ℚ) :
    "WARNING: Abort-to-orbit window closing" ≠ time_critical_warning q := by
  apply string_ne_of_head_ne
  intro h
  simp [time_critical_warning, String.data] at h

/-- C8: the abort-window warning appears in the output of `generate_alerts`
exactly when the assessment is not abort-capable and its status is not
CRITICAL; and under CAUTION with insufficient fuel and no abort capability
the two insufficient-fuel warnings and the abort-window warning all appear. -/
theorem C8_abort_window_rule (se : SafetyEvaluation) (cd : ConsumptionData)
    (p : FuelPrediction) :
    ("WARNING: Abort-to-orbit window closing" ∈ (generate_alerts se cd p).warnings ↔
      (se.abort_capable = false ∧ se.status ≠ "CRITICAL")) ∧
    (se.status = "CAUTION" → se.fuel_sufficient = false →
      se.abort_capable = false →
      ("CRITICAL: Insufficient fuel for nominal landing" ∈
          (generate_alerts se cd p).warnings ∧
        deficit_warning |se.fuel_margin| ∈ (generate_alerts se cd p).warnings ∧
        "WARNING: Abort-to-orbit window closing" ∈
          (generate_alerts se cd p).warnings)) := by
  unfold generate_alerts
  cases hts : se.time_remaining <;>
    dsimp only <;>
    split_ifs <;>
    simp_all [abort_ne_deficit_warning, abort_ne_deviation_warning,
      abort_ne_time_critical_warning]
  all_goals
    intro hcau
    cases hab : se.abort_capable <;> simp_all

theorem C8_witness :
    "CRITICAL: Insufficient fuel for nominal landing" ∈
      (generate_alerts ⟨"CAUTION", -30, false, some 40, false⟩ ⟨6, 0, false, 170⟩
        ⟨0, 0, [], 100⟩).warnings ∧
    deficit_warning 30 ∈
      (generate_alerts ⟨"CAUTION", -30, false, some 40, false⟩ ⟨6, 0, false, 170⟩
        ⟨0, 0, [], 100⟩).warnings ∧
    "WARNING: Abort-to-orbit window closing" ∈
      (generate_alerts ⟨"CAUTION", -30, false, some 40, false⟩ ⟨6, 0, false, 170⟩
        ⟨0, 0, [], 100⟩).warnings := by
  have h := (C8_abort_window_rule ⟨"CAUTION", -30, false, some 40, false⟩
    ⟨6, 0, false, 170⟩ ⟨0, 0, [], 100⟩).2 rfl rfl rfl
  have habs : |(-30 : ℚ)| = 30 := by norm_num
  simpa [habs] using h
